import Mathlib

/-!
Verification of the validation orchestrator of eark-validator-core.

The source of the orchestrator is `src/eark_validator/cli/app.py`: the
function `validate` (lines 124-151) composes a structure check, a schema
based METS validation and a schematron rule profile, and `process_entity`
(lines 49-80) assembles the report dictionary handed to the serializers.

The collaborators called by `validate` (the structure checker
`eark_validator.infopacks.information_package.validate_package_structure_dict`,
the schema validator `eark_validator.infopacks.mets.MetsValidator` and the
rule engine `eark_validator.infopacks.rules.ValidationProfile`) are not part
of the source tree that is being verified; their observable behaviour is
abstracted into an environment record `Env`, and where a claim depends on
their behaviour it is modelled from the specification text.
-/

/-- Python values as far as the orchestrator observes them: the `None`
singleton, booleans, integers and strings. The comparison `is True` in the
source is modelled as equality with `PyVal.bool true`, which no other
constructor satisfies. -/
inductive PyVal where
  | none
  | bool (b : Bool)
  | int (n : Int)
  | str (s : String)
deriving DecidableEq, Repr

/-- Python truthiness of a `PyVal`: `None` and `False` are falsy, `0` and
the empty string are falsy, everything else is truthy. -/
def PyVal.truthy : PyVal → Bool
  | PyVal.none => false
  | PyVal.bool b => b
  | PyVal.int n => n != 0
  | PyVal.str s => s != ""

/-- A Python dictionary as the orchestrator observes it: an association
list from string keys to values. -/
abbrev Dict := List (String × PyVal)

/-- The enumeration `IP.StructureStatus` used by the structure checker. -/
inductive StructureStatus where
  | WellFormed
  | NotWellFormed
  | Unknown
deriving DecidableEq, Repr

/-- The fields of the structure-checker result object read by `validate`:
`struct_details.structure_status` (line 136) and `struct_details.path`
(lines 138-139). -/
structure StructureDetails where
  structure_status : StructureStatus
  path : String
deriving DecidableEq, Repr

/-- The state of a `ValidationProfile` object as observed by `validate`:
the attribute `is_valid` (line 150) and the values returned by
`get_results` and `get_results_dict` (lines 146-147). -/
structure ValidationProfile where
  is_valid : PyVal
  results : Dict
  results_dict : Dict
deriving DecidableEq, Repr

/-- The three pipeline stages of the orchestrator; `validate` records in
order which external stages it invoked. -/
inductive Stage where
  | structureCheck
  | schema
  | profile
deriving DecidableEq, Repr

/-- The tuple returned by `validate` (line 151), in source order, plus the
ghost field `events` recording which stages ran. -/
structure ValidateResult where
  struct_dict : Dict
  prof_results_dict : Dict
  mets_results_dict : Dict
  struct_details : StructureDetails
  schema_result : PyVal
  schema_errors : List String
  prof_names : List String
  schematron_result : PyVal
  prof_results : Dict
  events : List Stage
deriving DecidableEq, Repr

/-- The behaviour of the external collaborators of `validate`. The METS
validator observations are functions of the package path and the METS path
because `MetsValidator` is constructed fresh from `struct_details.path`
(line 138) and queried right after `validate_mets` ran on `mets_path`
(lines 140-143); `profile_new` is the state of a freshly constructed
`ValidationProfile()` (line 134); `profile_validate` is the state change
performed by `profile.validate(mets_path)` (line 145); `NAMES` is the
class attribute `ValidationProfile.NAMES` (line 149). -/
structure Env where
  structure_check : String → Dict × StructureDetails
  mets_validate : String → String → PyVal
  mets_get_results_dict : String → String → Dict
  mets_validation_errors : String → String → List String
  profile_new : ValidationProfile
  profile_validate : ValidationProfile → String → ValidationProfile
  NAMES : List String

/-- Models `os.path.join(struct_details.path, 'METS.xml')` on line 139. -/
def pathJoin (a b : String) : String := a ++ "/" ++ b

/-- Shallow embedding of `validate` (src/eark_validator/cli/app.py lines
124-151). The local variables initialised on lines 128-134 keep their
initial values in every branch in which the source does not reassign them:
`schema_result = None`, `prof_results = {}`, `prof_results_dict = {}`,
`mets_results_dict = {}`, `schema_errors = []`, and `profile` stays the
fresh `ValidationProfile()`. The guard on line 136 gates the schema stage,
the guard `schema_result is True` on line 144 gates the profile stage. -/
def validate (env : Env) (to_validate : String) : ValidateResult :=
  let checked := env.structure_check to_validate
  let struct_dict := checked.1
  let struct_details := checked.2
  if struct_details.structure_status = StructureStatus.WellFormed then
    let mets_path := pathJoin struct_details.path "METS.xml"
    let schema_result := env.mets_validate struct_details.path mets_path
    let mets_results_dict := env.mets_get_results_dict struct_details.path mets_path
    let schema_errors := env.mets_validation_errors struct_details.path mets_path
    if schema_result = PyVal.bool true then
      let profile := env.profile_validate env.profile_new mets_path
      { struct_dict := struct_dict
        prof_results_dict := profile.results_dict
        mets_results_dict := mets_results_dict
        struct_details := struct_details
        schema_result := schema_result
        schema_errors := schema_errors
        prof_names := env.NAMES
        schematron_result := profile.is_valid
        prof_results := profile.results
        events := [Stage.structureCheck, Stage.schema, Stage.profile] }
    else
      { struct_dict := struct_dict
        prof_results_dict := []
        mets_results_dict := mets_results_dict
        struct_details := struct_details
        schema_result := schema_result
        schema_errors := schema_errors
        prof_names := env.NAMES
        schematron_result := env.profile_new.is_valid
        prof_results := []
        events := [Stage.structureCheck, Stage.schema] }
  else
    { struct_dict := struct_dict
      prof_results_dict := []
      mets_results_dict := []
      struct_details := struct_details
      schema_result := PyVal.none
      schema_errors := []
      prof_names := env.NAMES
      schematron_result := env.profile_new.is_valid
      prof_results := []
      events := [Stage.structureCheck] }

/-- Two successive calls of `validate` against the same immutable package
and the same environment, modelling validating a package twice. -/
def runTwice (env : Env) (p : String) : ValidateResult × ValidateResult :=
  (validate env p, validate env p)

/-- The metadata block built by `process_entity` (lines 51-58): filename,
filepath, filesize and sha1 hash of the entity. -/
structure Metadata where
  filename : String
  filepath : String
  filesize : Int
  sha1 : String
deriving DecidableEq, Repr

/-- The dictionary stored under the key "metadata" on line 61. -/
def metadataDict (md : Metadata) : Dict :=
  [("filename", PyVal.str md.filename), ("filepath", PyVal.str md.filepath),
   ("filesize", PyVal.int md.filesize), ("sha1", PyVal.str md.sha1)]

/-- Shallow embedding of the report assembly in `process_entity` (lines
60-69): `validation_result` is populated, in insertion order, with the
keys "metadata", "structure", "profile" and "mets"; the last three are
bound to the corresponding components of the `validate` tuple. -/
def process_entity_result (md : Metadata) (v : ValidateResult) : List (String × Dict) :=
  [("metadata", metadataDict md), ("structure", v.struct_dict),
   ("profile", v.prof_results_dict), ("mets", v.mets_results_dict)]

/-- Severity of a structural finding (spec section 4.1). -/
inductive Severity where
  | error
  | warning
  | info
deriving DecidableEq, Repr

/-- One structural finding: relative path, message, severity (spec
section 3, StructureDetails). -/
structure Finding where
  rel_path : String
  message : String
  severity : Severity
deriving DecidableEq, Repr

/-- A materialized package: its root path and the relative paths of its
member entries (spec section 3, Package). -/
structure Package where
  root : String
  entries : List String
deriving DecidableEq, Repr

/-- Modelled from the spec: the finding recorded by the structure checker
when the metadata file is missing, per spec section 8 Scenario A
(finding "missing metadata file"). -/
def missingMetadataFinding : Finding :=
  { rel_path := "METS.xml", message := "missing metadata file", severity := Severity.error }

/-- Modelled from the spec: the structure checker
`eark_validator.infopacks.information_package.validate_package_structure_dict`
is not under src/. Per spec section 4.1 it collects all findings before
deciding the status: a finding of error severity is recorded when the
metadata file METS.xml is absent from the package entries, further
findings from the remaining (externally configured, spec section 9 open
question) constraints are abstracted as `extra`; the status is WellFormed
iff zero findings of error severity were recorded, otherwise
NotWellFormed. -/
def validate_package_structure_dict (extra : Package → List Finding) (pkg : Package) :
    Dict × StructureDetails :=
  let findings :=
    (if "METS.xml" ∈ pkg.entries then [] else [missingMetadataFinding]) ++ extra pkg
  let status :=
    if findings.all (fun f => f.severity ≠ Severity.error) then StructureStatus.WellFormed
    else StructureStatus.NotWellFormed
  (findings.map (fun f => (f.rel_path, PyVal.str f.message)),
   { structure_status := status, path := pkg.root })

/-- An environment whose structure checker resolves the validated path to
the given package and checks it with the spec-modelled structure checker. -/
def withPackage (env : Env) (extra : Package → List Finding) (pkg : Package) : Env :=
  { env with structure_check := fun _ => validate_package_structure_dict extra pkg }

/-- Modelled from the spec: the schema validator returns a boolean overall
result (spec section 4.2, "Returns a boolean overall result and the
ordered list of violations"); `MetsValidator.validate_mets` is not under
src/, so its codomain is constrained by this predicate. -/
def metsReturnsBool (env : Env) : Prop :=
  ∀ a b, ∃ v, env.mets_validate a b = PyVal.bool v

/-- The structure details produced by `validate` are exactly the checker output. -/
theorem validate_struct_details (env : Env) (p : String) :
    (validate env p).struct_details = (env.structure_check p).2 := by
  simp only [validate]
  split
  · split <;> rfl
  · rfl

/-- Evaluation of `validate` when the structure status is not WellFormed:
the guard on line 136 fails and every local keeps its initialisation. -/
theorem validate_not_wf (env : Env) (p : String)
    (h : ¬ (env.structure_check p).2.structure_status = StructureStatus.WellFormed) :
    validate env p =
      { struct_dict := (env.structure_check p).1
        prof_results_dict := []
        mets_results_dict := []
        struct_details := (env.structure_check p).2
        schema_result := PyVal.none
        schema_errors := []
        prof_names := env.NAMES
        schematron_result := env.profile_new.is_valid
        prof_results := []
        events := [Stage.structureCheck] } := by
  simp [validate, h]

/-- Evaluation of `validate` when the structure is WellFormed and
`validate_mets` returned exactly the boolean True: both guards pass. -/
theorem validate_wf_true (env : Env) (p : String)
    (h : (env.structure_check p).2.structure_status = StructureStatus.WellFormed)
    (ht : env.mets_validate (env.structure_check p).2.path
        (pathJoin (env.structure_check p).2.path "METS.xml") = PyVal.bool true) :
    validate env p =
      { struct_dict := (env.structure_check p).1
        prof_results_dict := (env.profile_validate env.profile_new
          (pathJoin (env.structure_check p).2.path "METS.xml")).results_dict
        mets_results_dict := env.mets_get_results_dict (env.structure_check p).2.path
          (pathJoin (env.structure_check p).2.path "METS.xml")
        struct_details := (env.structure_check p).2
        schema_result := PyVal.bool true
        schema_errors := env.mets_validation_errors (env.structure_check p).2.path
          (pathJoin (env.structure_check p).2.path "METS.xml")
        prof_names := env.NAMES
        schematron_result := (env.profile_validate env.profile_new
          (pathJoin (env.structure_check p).2.path "METS.xml")).is_valid
        prof_results := (env.profile_validate env.profile_new
          (pathJoin (env.structure_check p).2.path "METS.xml")).results
        events := [Stage.structureCheck, Stage.schema, Stage.profile] } := by
  simp [validate, h, ht]

/-- Evaluation of `validate` when the structure is WellFormed but
`validate_mets` did not return exactly the boolean True: the guard on
line 144 fails, so the profile stage is skipped. -/
theorem validate_wf_not_true (env : Env) (p : String)
    (h : (env.structure_check p).2.structure_status = StructureStatus.WellFormed)
    (ht : ¬ env.mets_validate (env.structure_check p).2.path
        (pathJoin (env.structure_check p).2.path "METS.xml") = PyVal.bool true) :
    validate env p =
      { struct_dict := (env.structure_check p).1
        prof_results_dict := []
        mets_results_dict := env.mets_get_results_dict (env.structure_check p).2.path
          (pathJoin (env.structure_check p).2.path "METS.xml")
        struct_details := (env.structure_check p).2
        schema_result := env.mets_validate (env.structure_check p).2.path
          (pathJoin (env.structure_check p).2.path "METS.xml")
        schema_errors := env.mets_validation_errors (env.structure_check p).2.path
          (pathJoin (env.structure_check p).2.path "METS.xml")
        prof_names := env.NAMES
        schematron_result := env.profile_new.is_valid
        prof_results := []
        events := [Stage.structureCheck, Stage.schema] } := by
  simp [validate, h, ht]

/-- A package whose metadata file METS.xml is missing. -/
def pkgMissing : Package := { root := "/data/pkg", entries := ["content/file.txt"] }

/-- A package whose metadata file METS.xml is present. -/
def pkgOk : Package := { root := "/data/pkg", entries := ["METS.xml", "content/file.txt"] }

/-- The state of a freshly constructed profile used in the concrete
environments below, with a falsy default validity flag. -/
def profileFresh : ValidationProfile :=
  { is_valid := PyVal.bool false, results := [], results_dict := [] }

/-- A concrete environment in which the package is well formed, the schema
validation returns True and the profile evaluation succeeds. -/
def envOk : Env :=
  { structure_check := fun _ => validate_package_structure_dict (fun _ => []) pkgOk
    mets_validate := fun _ _ => PyVal.bool true
    mets_get_results_dict := fun _ _ => [("schemaResults", PyVal.str "ok")]
    mets_validation_errors := fun _ _ => []
    profile_new := profileFresh
    profile_validate := fun pr _ =>
      { pr with is_valid := PyVal.bool true, results := [("R1", PyVal.bool true)],
                results_dict := [("R1", PyVal.bool true)] }
    NAMES := ["METS root element", "METS header"] }

/-- A concrete environment whose package misses METS.xml. -/
def envMissing : Env := withPackage envOk (fun _ => []) pkgMissing

/-- A concrete environment in which the schema validation fails. -/
def envInvalidSchema : Env :=
  { envOk with
      mets_validate := fun _ _ => PyVal.bool false
      mets_validation_errors := fun _ _ => ["line 3: missing element metsHdr"] }

/-- A concrete environment in which the schema validation returns a truthy
value that is not the boolean True singleton. -/
def envTruthy : Env := { envOk with mets_validate := fun _ _ => PyVal.int 1 }

/-- A concrete metadata block for report-assembly statements. -/
def mdSample : Metadata :=
  { filename := "pkg", filepath := "/data", filesize := 2048, sha1 := "da39a3ee" }

/-- The rule-name catalog returned by `validate` is the class attribute in
every branch (line 149 runs after the conditionals). -/
theorem validate_prof_names (env : Env) (p : String) :
    (validate env p).prof_names = env.NAMES := by
  simp only [validate]
  split
  · split <;> rfl
  · rfl

/-- C1: the schema-validation stage executes, and a schema result is
produced, only when the structure check returned WellFormed; for
NotWellFormed or Unknown structure status the schema validator is never
invoked and schema_result stays the initial None. -/
theorem schema_stage_gated_by_structure (env : Env) (p : String) :
    (Stage.schema ∈ (validate env p).events ↔
      (env.structure_check p).2.structure_status = StructureStatus.WellFormed) ∧
    (¬ (env.structure_check p).2.structure_status = StructureStatus.WellFormed →
      (validate env p).schema_result = PyVal.none) := by
  by_cases h : (env.structure_check p).2.structure_status = StructureStatus.WellFormed
  · refine ⟨⟨fun _ => h, fun _ => ?_⟩, fun hc => absurd h hc⟩
    by_cases ht : env.mets_validate (env.structure_check p).2.path
        (pathJoin (env.structure_check p).2.path "METS.xml") = PyVal.bool true
    · rw [validate_wf_true env p h ht]; simp
    · rw [validate_wf_not_true env p h ht]; simp
  · rw [validate_not_wf env p h]
    exact ⟨by simp [h], fun _ => rfl⟩

/-- Witness for C1 at a concrete package missing METS.xml. -/
theorem schema_stage_gated_by_structure_witness :
    Stage.schema ∉ (validate envMissing "/data/pkg").events ∧
    (validate envMissing "/data/pkg").schema_result = PyVal.none := by
  have h := schema_stage_gated_by_structure envMissing "/data/pkg"
  exact ⟨fun hm => absurd (h.1.mp hm) (by decide), h.2 (by decide)⟩

/-- C2: the rule-profile stage runs exactly when the schema result is the
boolean True, and whenever it is anything else (including None when the
schema stage never ran) the profile result dictionaries stay empty. -/
theorem profile_stage_gated_by_schema (env : Env) (p : String) :
    (Stage.profile ∈ (validate env p).events ↔
      (validate env p).schema_result = PyVal.bool true) ∧
    (¬ (validate env p).schema_result = PyVal.bool true →
      (validate env p).prof_results_dict = [] ∧ (validate env p).prof_results = []) := by
  by_cases h : (env.structure_check p).2.structure_status = StructureStatus.WellFormed
  · by_cases ht : env.mets_validate (env.structure_check p).2.path
        (pathJoin (env.structure_check p).2.path "METS.xml") = PyVal.bool true
    · rw [validate_wf_true env p h ht]
      exact ⟨⟨fun _ => rfl, fun _ => by simp⟩, fun hc => absurd rfl hc⟩
    · rw [validate_wf_not_true env p h ht]
      exact ⟨by simp [ht], fun _ => ⟨rfl, rfl⟩⟩
  · rw [validate_not_wf env p h]
    exact ⟨by simp, fun _ => ⟨rfl, rfl⟩⟩

/-- Witness for C2 at a concrete run whose schema validation fails. -/
theorem profile_stage_gated_by_schema_witness :
    (validate envInvalidSchema "/data/pkg").prof_results_dict = [] ∧
    (validate envInvalidSchema "/data/pkg").prof_results = [] :=
  (profile_stage_gated_by_schema envInvalidSchema "/data/pkg").2 (by decide)

/-- C3: for every package whose METS.xml is missing, the spec-modelled
structure checker yields NotWellFormed, and the resulting run produces no
schema result and no profile results, never invoking those stages. -/
theorem missing_mets_not_well_formed (env : Env) (extra : Package → List Finding)
    (pkg : Package) (h : "METS.xml" ∉ pkg.entries) (p : String) :
    (validate (withPackage env extra pkg) p).struct_details.structure_status =
      StructureStatus.NotWellFormed ∧
    (validate (withPackage env extra pkg) p).schema_result = PyVal.none ∧
    (validate (withPackage env extra pkg) p).prof_results_dict = [] ∧
    (validate (withPackage env extra pkg) p).prof_results = [] ∧
    Stage.schema ∉ (validate (withPackage env extra pkg) p).events ∧
    Stage.profile ∉ (validate (withPackage env extra pkg) p).events := by
  have hst : ((withPackage env extra pkg).structure_check p).2.structure_status =
      StructureStatus.NotWellFormed := by
    simp [withPackage, validate_package_structure_dict, h, missingMetadataFinding]
  have hne : ¬ ((withPackage env extra pkg).structure_check p).2.structure_status =
      StructureStatus.WellFormed := by
    rw [hst]; simp
  rw [validate_not_wf _ _ hne]
  exact ⟨hst, rfl, rfl, rfl, by simp, by simp⟩

/-- Witness for C3 at a concrete package with no METS.xml entry. -/
theorem missing_mets_not_well_formed_witness :
    "METS.xml" ∉ pkgMissing.entries ∧
    (validate (withPackage envOk (fun _ => []) pkgMissing) "/data/pkg").struct_details.structure_status =
      StructureStatus.NotWellFormed ∧
    (validate (withPackage envOk (fun _ => []) pkgMissing) "/data/pkg").schema_result =
      PyVal.none :=
  ⟨by decide,
   (missing_mets_not_well_formed envOk (fun _ => []) pkgMissing (by decide) "/data/pkg").1,
   (missing_mets_not_well_formed envOk (fun _ => []) pkgMissing (by decide) "/data/pkg").2.1⟩

/-- C4: `validate` is a total function: for every environment and package
path, including those in which the structure check or the schema
validation failed, it reaches the end of the pipeline and returns a
complete report carrying the structure details and the rule catalog. -/
theorem validate_total_report (env : Env) (p : String) :
    (validate env p).struct_details = (env.structure_check p).2 ∧
    (validate env p).prof_names = env.NAMES ∧
    Stage.structureCheck ∈ (validate env p).events := by
  refine ⟨validate_struct_details env p, validate_prof_names env p, ?_⟩
  simp only [validate]
  split
  · split <;> simp
  · simp

/-- Counterexample to C5: in a concrete run whose structure gate failed,
the "profile" and "mets" fields of the assembled report are present,
bound to empty dictionaries, rather than absent. -/
theorem skipped_fields_present_counterexample :
    (validate envMissing "/data/pkg").struct_details.structure_status =
      StructureStatus.NotWellFormed ∧
    List.lookup "profile" (process_entity_result mdSample (validate envMissing "/data/pkg")) =
      some [] ∧
    List.lookup "mets" (process_entity_result mdSample (validate envMissing "/data/pkg")) =
      some [] := by decide

/-- C5 amended: when a gate fails, the skipped stage contributes no result
values (schema_result stays None, the profile result dictionaries stay
empty, and on a structure failure the mets dictionary stays empty too),
but the corresponding report fields remain present, mapped to those empty
values, rather than being absent. -/
theorem skipped_stage_values_empty (env : Env) (p : String) (md : Metadata) :
    (¬ (env.structure_check p).2.structure_status = StructureStatus.WellFormed →
      (validate env p).schema_result = PyVal.none ∧
      (validate env p).prof_results_dict = [] ∧
      (validate env p).mets_results_dict = [] ∧
      (validate env p).prof_results = [] ∧
      List.lookup "profile" (process_entity_result md (validate env p)) = some [] ∧
      List.lookup "mets" (process_entity_result md (validate env p)) = some []) ∧
    ((env.structure_check p).2.structure_status = StructureStatus.WellFormed →
      ¬ env.mets_validate (env.structure_check p).2.path
          (pathJoin (env.structure_check p).2.path "METS.xml") = PyVal.bool true →
      (validate env p).prof_results_dict = [] ∧
      (validate env p).prof_results = [] ∧
      List.lookup "profile" (process_entity_result md (validate env p)) = some []) := by
  constructor
  · intro h
    rw [validate_not_wf env p h]
    exact ⟨rfl, rfl, rfl, rfl, rfl, rfl⟩
  · intro h ht
    rw [validate_wf_not_true env p h ht]
    exact ⟨rfl, rfl, rfl⟩

/-- Witness for the amended C5 at concrete runs failing each gate. -/
theorem skipped_stage_values_empty_witness :
    List.lookup "profile" (process_entity_result mdSample (validate envMissing "/data/pkg")) =
      some [] ∧
    List.lookup "profile" (process_entity_result mdSample (validate envInvalidSchema "/data/pkg")) =
      some [] :=
  ⟨((skipped_stage_values_empty envMissing "/data/pkg" mdSample).1 (by decide)).2.2.2.2.1,
   ((skipped_stage_values_empty envInvalidSchema "/data/pkg" mdSample).2 (by decide) (by decide)).2.2⟩

/-- C6: `validate` is deterministic: validating the same immutable package
twice against the same environment yields equal reports. -/
theorem validate_deterministic (env : Env) (p : String) :
    (runTwice env p).1 = (runTwice env p).2 := rfl

/-- C7: the rule catalog returned by `validate` is the class attribute
NAMES regardless of the package and of which stages ran, so two runs on
any two packages report the same catalog. -/
theorem prof_names_invariant (env : Env) (p q : String) :
    (validate env p).prof_names = env.NAMES ∧
    (validate env p).prof_names = (validate env q).prof_names :=
  ⟨validate_prof_names env p,
   (validate_prof_names env p).trans (validate_prof_names env q).symm⟩

/-- C8: under the spec-modelled guarantee that the schema validator
returns a boolean, the returned schema_result is the distinguished None
exactly when the structure status is not WellFormed, so a caller can tell
a run in which schema validation never happened from one in which it ran
and returned False. -/
theorem schema_none_iff_not_wellformed (env : Env) (p : String)
    (hb : metsReturnsBool env) :
    (validate env p).schema_result = PyVal.none ↔
      ¬ (env.structure_check p).2.structure_status = StructureStatus.WellFormed := by
  by_cases h : (env.structure_check p).2.structure_status = StructureStatus.WellFormed
  · obtain ⟨v, hv⟩ := hb (env.structure_check p).2.path
      (pathJoin (env.structure_check p).2.path "METS.xml")
    by_cases ht : env.mets_validate (env.structure_check p).2.path
        (pathJoin (env.structure_check p).2.path "METS.xml") = PyVal.bool true
    · rw [validate_wf_true env p h ht]; simp [h]
    · rw [validate_wf_not_true env p h ht]; simp [h, hv]
  · rw [validate_not_wf env p h]; simp [h]

/-- Witness for C8 at a concrete boolean-returning environment. -/
theorem schema_none_iff_not_wellformed_witness :
    metsReturnsBool envMissing ∧
    ((validate envMissing "/data/pkg").schema_result = PyVal.none ↔
      ¬ (envMissing.structure_check "/data/pkg").2.structure_status =
        StructureStatus.WellFormed) :=
  ⟨fun _ _ => ⟨true, rfl⟩,
   schema_none_iff_not_wellformed envMissing "/data/pkg" (fun _ _ => ⟨true, rfl⟩)⟩

/-- C9: once the structure gate passed, the rule-profile stage runs iff
`validate_mets` returned the exact boolean True; in particular any truthy
value other than the True singleton skips rule evaluation. -/
theorem profile_requires_exact_true (env : Env) (p : String)
    (h : (env.structure_check p).2.structure_status = StructureStatus.WellFormed) :
    (Stage.profile ∈ (validate env p).events ↔
      env.mets_validate (env.structure_check p).2.path
        (pathJoin (env.structure_check p).2.path "METS.xml") = PyVal.bool true) ∧
    (PyVal.truthy (env.mets_validate (env.structure_check p).2.path
        (pathJoin (env.structure_check p).2.path "METS.xml")) = true →
      ¬ env.mets_validate (env.structure_check p).2.path
          (pathJoin (env.structure_check p).2.path "METS.xml") = PyVal.bool true →
      Stage.profile ∉ (validate env p).events) := by
  by_cases ht : env.mets_validate (env.structure_check p).2.path
      (pathJoin (env.structure_check p).2.path "METS.xml") = PyVal.bool true
  · rw [validate_wf_true env p h ht]
    exact ⟨⟨fun _ => ht, fun _ => by simp⟩, fun _ hne => absurd ht hne⟩
  · rw [validate_wf_not_true env p h ht]
    exact ⟨⟨fun hm => absurd hm (by simp), fun hc => absurd hc ht⟩,
           fun _ _ => by simp⟩

/-- Witness for C9 at a concrete run in which validate_mets returned the
truthy integer 1, which is not the boolean True. -/
theorem profile_requires_exact_true_witness :
    PyVal.truthy (PyVal.int 1) = true ∧
    Stage.profile ∉ (validate envTruthy "/data/pkg").events :=
  ⟨by decide,
   (profile_requires_exact_true envTruthy "/data/pkg" (by decide)).2 (by decide) (by decide)⟩

/-- C10: whenever the rule-profile stage was skipped (structure failed or
schema result not the boolean True), the returned schematron_result is
read off the freshly constructed ValidationProfile, i.e. it equals the
default is_valid of a new profile object rather than a distinguished
not-run marker. -/
theorem schematron_default_when_profile_skipped (env : Env) (p : String)
    (h : ¬ (validate env p).schema_result = PyVal.bool true) :
    (validate env p).schematron_result = env.profile_new.is_valid := by
  by_cases hw : (env.structure_check p).2.structure_status = StructureStatus.WellFormed
  · by_cases ht : env.mets_validate (env.structure_check p).2.path
        (pathJoin (env.structure_check p).2.path "METS.xml") = PyVal.bool true
    · rw [validate_wf_true env p hw ht] at h
      exact absurd rfl h
    · rw [validate_wf_not_true env p hw ht]
  · rw [validate_not_wf env p hw]

/-- Witness for C10 at a concrete run whose schema validation fails: the
returned flag is the fresh default False, not a not-run marker. -/
theorem schematron_default_when_profile_skipped_witness :
    ¬ (validate envInvalidSchema "/data/pkg").schema_result = PyVal.bool true ∧
    (validate envInvalidSchema "/data/pkg").schematron_result =
      envInvalidSchema.profile_new.is_valid :=
  ⟨by decide, schematron_default_when_profile_skipped envInvalidSchema "/data/pkg" (by decide)⟩
